import Mathlib

/-!
Verification of the PlantCareAI web application.

Shallow embedding of the PlantCareAI Flask application (`app.py`) and its
model loader (`PlantCare_AI/utils/model_loader.py`).  Python strings are
modelled as `List Char` / `String`, Python dictionaries that may lack keys
as `Option`-valued fields, raising code as `Except`, and the numbers
flowing through the classifier as exact rationals.
-/

namespace PlantCare

/-- Fuel-driven core of Python `str.replace(pat, rep)`: scan left to
right, replacing every non-overlapping occurrence of `pat` by `rep`.  One
unit of fuel is spent per step and each step consumes at least one input
character, so starting the fuel at the input length (as `pyReplace` does)
never exhausts it. -/
def pyReplaceFuel : ℕ → List Char → List Char → List Char → List Char
  | 0, _, _, _ => []
  | _ + 1, [], _, _ => []
  | fuel + 1, c :: s, pat, rep =>
    if pat ≠ [] ∧ pat.isPrefixOf (c :: s) then
      rep ++ pyReplaceFuel fuel ((c :: s).drop pat.length) pat rep
    else
      c :: pyReplaceFuel fuel s pat rep

/-- Python `str.replace(pat, rep)` on character lists.  The `pat ≠ []`
guard in the core only rules out the empty pattern, which the application
never uses. -/
def pyReplace (s pat rep : List Char) : List Char :=
  pyReplaceFuel s.length s pat rep

/-- Python `str.replace` lifted to `String`. -/
def pyReplaceStr (s pat rep : String) : String :=
  ⟨pyReplace s.data pat.data rep.data⟩

/-- Python `str.lower()` restricted to the ASCII case mapping, which is
all the extension check exercises. -/
def pyLower (s : List Char) : List Char := s.map Char.toLower

/-- The piece `filename.rsplit('.', 1)[1]`: everything after the last
dot.  (`app.py` only evaluates it under the guard `'.' in filename`.) -/
def afterLastDot (s : List Char) : List Char :=
  (s.reverse.takeWhile (fun c => c ≠ '.')).reverse

/-- The allow-list `ALLOWED_EXTENSIONS = {'png', 'jpg', 'jpeg'}` (`app.py` line 45). -/
def ALLOWED_EXTENSIONS : List (List Char) :=
  ["png".data, "jpg".data, "jpeg".data]

/-- Function `allowed_file` (`app.py` lines 90-91):
`'.' in filename and filename.rsplit('.', 1)[1].lower() in ALLOWED_EXTENSIONS`. -/
def allowed_file (filename : List Char) : Bool :=
  filename.contains '.' && ALLOWED_EXTENSIONS.contains (pyLower (afterLastDot filename))

/-- Model of `np.max` over the prediction row; the application only applies it to a
nonempty row (`model.predict` output). -/
def npMax : List ℚ → ℚ
  | [] => 0
  | [x] => x
  | x :: y :: rest => max x (npMax (y :: rest))

/-- Model of `np.argmax` over the prediction row: the index of the first occurrence
of the maximum value (numpy documents first-occurrence tie-breaking). -/
def npArgmax : List ℚ → ℕ
  | [] => 0
  | [_] => 0
  | x :: y :: rest => if x < npMax (y :: rest) then npArgmax (y :: rest) + 1 else 0

/-- Python `str.capitalize()`: first character upper-cased, the rest
lower-cased (ASCII case mapping). -/
def pyCapitalize (s : String) : String :=
  match s.data with
  | [] => s
  | c :: rest => ⟨Char.toUpper c :: rest.map Char.toLower⟩

/-- Python `round(x)` on a rational: round half to even (banker's
rounding), as Python's built-in `round` does. -/
def halfEvenRound (q : ℚ) : ℤ :=
  if q - Rat.floor q < 1 / 2 then Rat.floor q
  else if 1 / 2 < q - Rat.floor q then Rat.floor q + 1
  else if Rat.floor q % 2 = 0 then Rat.floor q
  else Rat.floor q + 1

/-- Python `round(x, 2)`: round to two decimal places, half to even. -/
def pyRound2 (q : ℚ) : ℚ := (halfEvenRound (q * 100) : ℚ) / 100

/-- Decimal rendering of a count of hundredths, matching how Python
formats the corresponding float: always at least one fractional digit and
no trailing zeros beyond that. -/
def formatHundredthsNat (n : ℕ) : String :=
  if n % 100 = 0 then toString (n / 100) ++ ".0"
  else if n % 100 % 10 = 0 then toString (n / 100) ++ "." ++ toString (n % 100 / 10)
  else if n % 100 < 10 then toString (n / 100) ++ ".0" ++ toString (n % 100)
  else toString (n / 100) ++ "." ++ toString (n % 100)

/-- Rendering of a non-negative rational whose denominator divides 100
(the shape produced by `pyRound2`) the way Python prints the
corresponding float. -/
def formatHundredths (q : ℚ) : String :=
  formatHundredthsNat (Rat.floor (q * 100)).toNat

/-- The confidence string `f"{round(confidence * 100, 2)}%"` (`app.py` line 247). -/
def confidenceStr (confidence : ℚ) : String :=
  formatHundredths (pyRound2 (confidence * 100)) ++ "%"

/-- Python exception kinds raised by the code paths modelled here. -/
inductive PyErr where
  /-- Python `TypeError`: e.g. piping `None` into a langchain runnable chain. -/
  | typeError
  /-- Python `KeyError`: a dictionary subscript on an absent key. -/
  | keyError
  /-- Python `IndexError`: a list subscript out of range. -/
  | indexError
  /-- Python `ValueError`: e.g. `np.argmax` on an empty array. -/
  | valueError
deriving DecidableEq

/-- Opaque token standing for an in-memory image array; its contents only
flow through the abstract image-processing functions of `AppEnv`. -/
abbrev Img := ℕ

/-- The loaded Keras classifier: all the application uses of it is
`model.predict`, producing the probability row `predictions[0]`. -/
structure PModel where
  predict : Img → List ℚ

/-- Opaque token standing for a loaded langchain chat-model handle. -/
structure LLM where
  tag : ℕ
deriving DecidableEq

/-- The `main` sub-dictionary of an OpenWeatherMap payload (the
application only reads `temp`, an integer in the claims' payloads). -/
structure MainData where
  temp : ℤ
deriving DecidableEq

/-- One entry of the `weather` array of an OpenWeatherMap payload. -/
structure WeatherDesc where
  description : String
deriving DecidableEq

/-- An OpenWeatherMap current-weather payload; `Option` fields model
possibly-absent dictionary keys. -/
structure WeatherPayload where
  main : Option MainData
  weather : Option (List WeatherDesc)
deriving DecidableEq

/-- Python truthiness of `request.form.get(...)` / `os.getenv(...)`
results and of a Werkzeug `FileStorage` (whose truth value is the truth
value of its filename): `None` and the empty string are falsy. -/
def truthyOpt : Option String → Bool
  | none => false
  | some s => s != ""

/-- Process-level state of `app.py` after the startup section: the
classifier with its class names, the image-processing primitives, the LLM
handle (or `none` when `ModelLoader` failed), the weather tool, and the
remaining library functions the `analyze` route calls.  All of these are
abstract parameters: the theorems quantify over them. -/
structure AppEnv where
  model : Option PModel
  class_names : List String
  /-- Model of `cv2.imread`: `none` models a decode failure (Python `None`). -/
  imread : String → Option Img
  /-- Model of `cv2.cvtColor(img, cv2.COLOR_BGR2RGB)`. -/
  cvtColor : Img → Img
  /-- Model of `cv2.resize(img_rgb, (224, 224))` composed with `np.expand_dims`. -/
  resize : Img → Img
  llm : Option LLM
  /-- Model of `weather_tool.get_current_weather(city)`. -/
  get_current_weather : String → WeatherPayload
  /-- Model of `weather_tool.get_forecast_weather(city)`. -/
  get_forecast_weather : String → WeatherPayload
  /-- Model of `werkzeug.utils.secure_filename`. -/
  secure_filename : String → String
  /-- Model of `markdown.markdown`. -/
  markdown : String → String
  /-- Model of `(PLANT_CARE_PROMPT | llm | StrOutputParser()).invoke({disease, weather_data})`
  for a loaded handle: the model's answer as a function of the two prompt
  inputs. -/
  respond : LLM → String → String → String

/-- Function `preprocess_image` (`app.py` lines 93-98): returns `None` when
`cv2.imread` fails to decode the file, otherwise the converted, resized,
batch-expanded array. -/
def preprocess_image (e : AppEnv) (image_path : String) : Option Img :=
  match e.imread image_path with
  | none => none
  | some img => some (e.resize (e.cvtColor img))

/-- Function `predict_disease` (`app.py` lines 100-106).  The two sentinel branches
return normally; the success branch models `np.argmax` / `np.max` over
`predictions[0]` and the `class_names[idx]` subscript (which raises on an
empty row or an out-of-range index). -/
def predict_disease (e : AppEnv) (img_path : String) : Except PyErr (String × ℚ) :=
  match e.model with
  | none => .ok ("Model not loaded", 0)
  | some m =>
    match preprocess_image e img_path with
    | none => .ok ("Processing failed", 0)
    | some pimg =>
      match m.predict pimg with
      | [] => .error .valueError
      | x :: rest =>
        match e.class_names.get? (npArgmax (x :: rest)) with
        | none => .error .indexError
        | some name => .ok (name, npMax (x :: rest))

/-- The weather summary assembled inline in `analyze` (`app.py` line 235):
`f"{weather_data['weather'][0]['description'].capitalize()}, {weather_data['main']['temp']}°C"
if 'main' in weather_data else "Weather data unavailable"`.  When `main`
is present, an absent `weather` key raises `KeyError` and an empty
`weather` array raises `IndexError`. -/
def weather_summary (w : WeatherPayload) : Except PyErr String :=
  match w.main with
  | none => .ok ("Weather data unavailable")
  | some m =>
    match w.weather with
    | none => .error .keyError
    | some [] => .error .indexError
    | some (d :: _) =>
      .ok (pyCapitalize d.description ++ ", " ++ toString m.temp ++ "°C")

/-- Model of `(PLANT_CARE_PROMPT | llm | StrOutputParser()).invoke(...)` as executed
by `analyze` (`app.py` lines 238-242).  When `llm` is `None`, the pipe
`PLANT_CARE_PROMPT | None` is rejected by langchain's runnable coercion
with a `TypeError`; there is no `None` check on this path. -/
def chain_invoke (llm : Option LLM) (respond : LLM → String → String → String)
    (disease weather_data : String) : Except PyErr String :=
  match llm with
  | none => .error .typeError
  | some l => .ok (respond l disease weather_data)

/-- Function `get_combined_advice` (`app.py` lines 108-125).  The second component
counts LLM invocations.  The summary string uses the `.get`-with-default
chains of lines 115-116: an absent `weather` key falls back to `"N/A"`,
an absent `main` key renders Python's `None` as `"None"`, while a present
but empty `weather` array raises `IndexError`. -/
def get_combined_advice (e : AppEnv) (disease_name city : String) :
    Except PyErr (String × ℕ) :=
  match e.llm with
  | none => .ok ("AI advice unavailable.", 0)
  | some l =>
    let wd := e.get_current_weather city
    let _fc := e.get_forecast_weather city
    match (match wd.weather with
           | none => Except.ok ("N/A")
           | some [] => Except.error PyErr.indexError
           | some (d :: _) => Except.ok d.description) with
    | .error err => .error err
    | .ok desc =>
      let tempStr := match wd.main with
        | none => "None"
        | some m => toString m.temp
      let weather_sum :=
        "Weather in " ++ city ++ ": " ++ desc ++ ", Temp: " ++ tempStr ++ "°C. "
      let clean_name := pyReplaceStr (pyReplaceStr disease_name ("___") " ") "_" " "
      .ok (e.respond l clean_name weather_sum, 1)

/-- The Flask session, restricted to what the routes read:
whether the key `'logged_in'` is present. -/
structure Session where
  logged_in : Bool
deriving DecidableEq

/-- An HTTP request to `/analyze`: the method, `request.form.get('city')`
and the filename of `request.files.get('file')` (`none` when no file part
was sent). -/
structure Request where
  method : String
  city : Option String
  file : Option String
deriving DecidableEq

/-- A Flask response: either `redirect(url_for(endpoint))` or
`render_template(template, **fields)` with the keyword arguments passed. -/
inductive Response where
  | redirect (endpoint : String)
  | page (template : String) (fields : List (String × String))
deriving DecidableEq

/-- Observable outcome of one `/analyze` request: the response (or the
exception the handler raised), whether `predict_disease` /
`preprocess_image` ran, and whether `file.save` ran. -/
structure AnalyzeOutcome where
  response : Except PyErr Response
  classifierCalled : Bool
  fileSaved : Bool

/-- The constant `UPLOAD_FOLDER = 'static/uploads'` (`app.py` line 44). -/
def UPLOAD_FOLDER : String := "static/uploads"

/-- The validated-upload branch of `analyze` (`app.py` lines 225-250):
save the file, classify, fetch weather, build the summary, invoke the
advice chain, and render `analyze.html` with the six keyword arguments of
lines 244-250. -/
def analyze_success (e : AppEnv) (fn city : String) : AnalyzeOutcome :=
  let filename := e.secure_filename fn
  let filepath := UPLOAD_FOLDER ++ "/" ++ filename
  match predict_disease e filepath with
  | .error err => ⟨.error err, true, true⟩
  | .ok (disease, confidence) =>
    match weather_summary (e.get_current_weather city) with
    | .error err => ⟨.error err, true, true⟩
    | .ok wsum =>
      match chain_invoke e.llm e.respond
          (pyReplaceStr (pyReplaceStr disease ("___") " ") "_" " ") wsum with
      | .error err => ⟨.error err, true, true⟩
      | .ok advice_md =>
        ⟨.ok (.page ("analyze.html")
            [("filename", filename),
             ("disease", pyReplaceStr (pyReplaceStr disease ("___") " - ") "_" " "),
             ("confidence", confidenceStr confidence),
             ("weather", wsum),
             ("city", city),
             ("remedy", e.markdown advice_md)]),
         true, true⟩

/-- The `/analyze` route as wrapped by `login_required` (`app.py` lines
81-88 and 217-252): without `'logged_in'` in the session the wrapper
redirects to `signin` before the handler body runs; otherwise a POST whose
file part is truthy, whose filename passes `allowed_file` and whose city
is truthy runs the success branch, and every other request falls through
to the blank `render_template('analyze.html')` of line 252. -/
def analyze_route (e : AppEnv) (sess : Session) (req : Request) : AnalyzeOutcome :=
  if sess.logged_in = false then
    ⟨.ok (.redirect ("signin")), false, false⟩
  else if req.method = "POST" then
    match req.file, req.city with
    | some fn, some city =>
      if fn != "" && allowed_file fn.data && city != "" then
        analyze_success e fn city
      else
        ⟨.ok (.page ("analyze.html") []), false, false⟩
    | _, _ => ⟨.ok (.page ("analyze.html") []), false, false⟩
  else
    ⟨.ok (.page ("analyze.html") []), false, false⟩

/-- The two failure kinds `load_llm` raises, besides returning a handle:
`ImportError` for a missing client library and `ValueError` for a missing
credential or an unsupported provider. -/
inductive LoadError where
  | importError (msg : String)
  | valueError (msg : String)
deriving DecidableEq

/-- Runtime environment of `ModelLoader.load_llm`: which client libraries
imported successfully (the `ChatGroq is None` / `ChatOpenAI is None`
checks), the process environment, and the model names read from
`config.yaml`. -/
structure LoaderEnv where
  chatGroqInstalled : Bool
  chatOpenAIInstalled : Bool
  getenv : String → Option String
  groq_model_name : String
  openai_model_name : String

/-- A successfully constructed chat-model client (`ChatGroq(...)` /
`ChatOpenAI(...)`); constructing it performs no network call. -/
structure LLMHandle where
  provider : String
  model_name : String
  api_key : String
deriving DecidableEq

/-- Method `ModelLoader.load_llm` (`model_loader.py` lines 50-85): for each
supported provider, first the library check (`ImportError`), then the
`os.getenv` credential check (`ValueError`, also hit by an empty string
because of Python's `if not api_key`), then the client construction; any
other provider value hits the final `ValueError` branch. -/
def load_llm (env : LoaderEnv) (model_provider : String) : Except LoadError LLMHandle :=
  if model_provider = "groq" then
    if env.chatGroqInstalled = false then
      .error (.importError
        ("langchain_groq is not installed. Install it using: pip install langchain-groq"))
    else if truthyOpt (env.getenv ("GROQ_API_KEY")) = false then
      .error (.valueError ("GROQ_API_KEY missing! Check your .env file."))
    else
      .ok ⟨"groq", env.groq_model_name, (env.getenv ("GROQ_API_KEY")).getD ("")⟩
  else if model_provider = "openai" then
    if env.chatOpenAIInstalled = false then
      .error (.importError
        ("langchain_openai is not installed. Install it using: pip install langchain-openai"))
    else if truthyOpt (env.getenv ("OPENAI_API_KEY")) = false then
      .error (.valueError ("OPENAI_API_KEY missing! Check your .env file."))
    else
      .ok ⟨"openai", env.openai_model_name, (env.getenv ("OPENAI_API_KEY")).getD ("")⟩
  else
    .error (.valueError ("Unsupported provider: " ++ model_provider))

/-! ## Concrete instances used by the witnesses and counterexamples -/

/-- A minimal process state: nothing loaded, every image fails to decode. -/
def baseEnv : AppEnv where
  model := none
  class_names := []
  imread := fun _ => none
  cvtColor := id
  resize := id
  llm := none
  get_current_weather := fun _ => ⟨none, none⟩
  get_forecast_weather := fun _ => ⟨none, none⟩
  secure_filename := id
  markdown := id
  respond := fun _ _ _ => "advice"

/-- The weather payload of the end-to-end scenario:
`{main: {temp: 30}, weather: [{description: "clear sky"}]}`. -/
def mumbaiWeather : WeatherPayload := ⟨some ⟨30⟩, some [⟨"clear sky"⟩]⟩

/-- Process state of the end-to-end scenario: classifier loaded and
returning `("Tomato___Early_blight", 0.92)` on every image, LLM loaded,
weather tool returning `mumbaiWeather`. -/
def envScenario : AppEnv :=
  { baseEnv with
    model := some ⟨fun _ => [23 / 25]⟩
    class_names := ["Tomato___Early_blight"]
    imread := fun _ => some 0
    llm := some ⟨0⟩
    get_current_weather := fun _ => mumbaiWeather }

/-- The scenario state with the LLM handle lost at startup (`llm = None`). -/
def envNoLlm : AppEnv := { envScenario with llm := none }

/-- The scenario state with every image failing to decode. -/
def envBadImage : AppEnv := { envScenario with imread := fun _ => none }

/-- A classifier state with a tied probability row `[1, 3, 3, 2]`. -/
def envTied : AppEnv :=
  { envScenario with
    model := some ⟨fun _ => [1, 3, 3, 2]⟩
    class_names := ["A", "B", "C", "D"] }

/-- A loader runtime with neither client library importable and an empty
process environment. -/
def lenvMissingLib : LoaderEnv :=
  ⟨false, false, fun _ => none, "llama-3.1-8b-instant", "gpt-4o-mini"⟩

/-- A loader runtime with both client libraries importable and an empty
process environment. -/
def lenvNoKey : LoaderEnv :=
  ⟨true, true, fun _ => none, "llama-3.1-8b-instant", "gpt-4o-mini"⟩

/-! ## Helper lemmas -/

/-- Replacing a single character `c` by a replacement that does not
contain `c` leaves no occurrence of `c` in the result, whatever the
fuel. -/
theorem pyReplaceFuel_single_not_mem (c : Char) (rep : List Char) (hc : c ∉ rep) :
    ∀ (fuel : ℕ) (s : List Char), c ∉ pyReplaceFuel fuel s [c] rep := by
  intro fuel
  induction fuel with
  | zero => intro s; simp [pyReplaceFuel]
  | succ fuel ih =>
    intro s
    cases s with
    | nil => simp [pyReplaceFuel]
    | cons d s =>
      rw [pyReplaceFuel]
      by_cases hd : d = c
      · subst hd
        have hpre : [d].isPrefixOf (d :: s) = true := by
          simp [List.isPrefixOf]
        simp only [ne_eq, reduceCtorEq, not_false_eq_true, hpre, and_true, if_true,
          List.length_cons]
        intro hmem
        rcases List.mem_append.mp hmem with h1 | h2
        · exact hc h1
        · have hdrop : List.drop (List.length ([] : List Char) + 1) (d :: s) = s := rfl
          rw [hdrop] at h2
          exact ih s h2
      · have hpre : [c].isPrefixOf (d :: s) = false := by
          simp [List.isPrefixOf, Ne.symm hd]
        simp only [ne_eq, reduceCtorEq, not_false_eq_true, hpre, and_false, Bool.false_eq_true,
          if_false, true_and]
        intro hmem
        rcases List.mem_cons.mp hmem with h1 | h2
        · exact hd h1.symm
        · exact ih s h2

/-- Replacing a single character `c` by a `c`-free replacement leaves no
occurrence of `c`. -/
theorem pyReplace_single_not_mem (c : Char) (rep : List Char) (hc : c ∉ rep)
    (s : List Char) : c ∉ pyReplace s [c] rep :=
  pyReplaceFuel_single_not_mem c rep hc s.length s

theorem npMax_cons (x : ℚ) (xs : List ℚ) (h : xs ≠ []) :
    npMax (x :: xs) = max x (npMax xs) := by
  cases xs with
  | nil => exact absurd rfl h
  | cons y rest => rfl

theorem npArgmax_cons (x : ℚ) (xs : List ℚ) (h : xs ≠ []) :
    npArgmax (x :: xs) = if x < npMax xs then npArgmax xs + 1 else 0 := by
  cases xs with
  | nil => exact absurd rfl h
  | cons y rest => rfl

/-- Characterisation of `npArgmax` as a stable arg-max: it is a valid
index, it attains `npMax`, and every earlier entry is strictly below the
maximum (so ties go to the lowest index). -/
theorem npArgmax_spec (l : List ℚ) (hne : l ≠ []) :
    ∃ hlt : npArgmax l < l.length,
      l.get ⟨npArgmax l, hlt⟩ = npMax l ∧
      ∀ j (hj : j < npArgmax l) (hjl : j < l.length), l.get ⟨j, hjl⟩ < npMax l := by
  induction l with
  | nil => exact absurd rfl hne
  | cons x xs ih =>
    by_cases hxs : xs = []
    · subst hxs
      refine ⟨by simp [npArgmax], by simp [npArgmax, npMax], ?_⟩
      intro j hj hjl
      simp [npArgmax] at hj
    · obtain ⟨hlt, hget, hbefore⟩ := ih hxs
      rw [npArgmax_cons x xs hxs, npMax_cons x xs hxs]
      by_cases hcmp : x < npMax xs
      · rw [if_pos hcmp]
        have hmax : max x (npMax xs) = npMax xs := max_eq_right (le_of_lt hcmp)
        refine ⟨by simpa using Nat.succ_lt_succ hlt, ?_, ?_⟩
        · rw [hmax]; simpa using hget
        · intro j hj hjl
          rw [hmax]
          cases j with
          | zero => simpa using hcmp
          | succ k =>
            have hk : k < npArgmax xs := Nat.lt_of_succ_lt_succ hj
            have hkl : k < xs.length := by simpa using Nat.lt_of_succ_lt_succ hjl
            simpa using hbefore k hk hkl
      · rw [if_neg hcmp]
        have hmax : max x (npMax xs) = x := max_eq_left (le_of_not_lt hcmp)
        refine ⟨by simp, by simpa using hmax.symm, ?_⟩
        intro j hj hjl
        exact absurd hj (Nat.not_lt_zero j)

/-- The confidence string the scenario renders: `round(0.92 * 100, 2)`
formatted as a float with a percent sign. -/
theorem confidenceStr_092 : confidenceStr (23 / 25) = "92.0%" := by
  have h1 : ((23 : ℚ) / 25 * 100) = 92 := by norm_num
  have hf : Rat.floor ((92 : ℚ) * 100) = 9200 := by norm_num [Rat.floor_def']
  have h3 : halfEvenRound ((92 : ℚ) * 100) = 9200 := by
    unfold halfEvenRound
    rw [hf]
    norm_num
  have h4 : pyRound2 92 = 92 := by
    unfold pyRound2
    rw [h3]
    norm_num
  have h5 : formatHundredths 92 = "92.0" := by
    unfold formatHundredths
    rw [hf]
    rfl
  unfold confidenceStr
  rw [h1, h4, h5]
  rfl

/-! ## The claims -/

/-- C1 (counterexample).  The claim says that with `llm = None` the advice
generation on the `/analyze` path returns the literal
`"AI advice unavailable."`.  On the code it does not: the handler builds
`PLANT_CARE_PROMPT | llm | StrOutputParser()` itself, without the `None`
guard of `get_combined_advice` (which it never calls), so a valid
authenticated upload with `llm = None` raises a `TypeError` instead of
producing any advice string. -/
theorem advice_on_analyze_path_with_no_llm :
    analyze_route envNoLlm ⟨true⟩ ⟨"POST", some ("Mumbai"), some ("leaf.jpg")⟩ =
      ⟨.error .typeError, true, true⟩ := rfl

/-- C1 (amended).  `get_combined_advice` itself does short-circuit: if the
LLM handle is `None` it returns exactly `"AI advice unavailable."` and
performs zero model calls — but the `analyze` request path never invokes
it. -/
theorem get_combined_advice_no_llm (e : AppEnv) (disease_name city : String)
    (h : e.llm = none) :
    get_combined_advice e disease_name city = .ok ("AI advice unavailable.", 0) := by
  unfold get_combined_advice
  rw [h]

theorem get_combined_advice_no_llm_witness :
    get_combined_advice envNoLlm ("Tomato___Early_blight") "Mumbai" =
      .ok ("AI advice unavailable.", 0) :=
  get_combined_advice_no_llm envNoLlm ("Tomato___Early_blight") "Mumbai" rfl

/-- C2.  `predict_disease` returns normally on both guard paths: with no
loaded model it returns `("Model not loaded", 0.0)`, and with a loaded
model but a failed preprocessing (decode failure) it returns
`("Processing failed", 0.0)`. -/
theorem predict_disease_sentinels (e : AppEnv) (img_path : String) :
    (e.model = none → predict_disease e img_path = .ok ("Model not loaded", 0)) ∧
    (∀ m, e.model = some m → preprocess_image e img_path = none →
      predict_disease e img_path = .ok ("Processing failed", 0)) := by
  constructor
  · intro h
    unfold predict_disease
    rw [h]
  · intro m hm hp
    unfold predict_disease
    rw [hm, hp]

theorem predict_disease_sentinels_witness :
    predict_disease baseEnv ("leaf.jpg") = .ok ("Model not loaded", 0) ∧
    predict_disease envBadImage ("leaf.jpg") = .ok ("Processing failed", 0) :=
  ⟨(predict_disease_sentinels baseEnv ("leaf.jpg")).1 rfl,
   (predict_disease_sentinels envBadImage ("leaf.jpg")).2 ⟨fun _ => [23 / 25]⟩ rfl rfl⟩

/-- C3.  In the `analyze` handler, a weather payload without the key
`"main"` yields exactly the summary `"Weather data unavailable"`. -/
theorem weather_summary_unavailable (w : WeatherPayload) (h : w.main = none) :
    weather_summary w = .ok ("Weather data unavailable") := by
  unfold weather_summary
  rw [h]

theorem weather_summary_unavailable_witness :
    weather_summary ⟨none, none⟩ = .ok ("Weather data unavailable") :=
  weather_summary_unavailable ⟨none, none⟩ rfl

/-- C4.  Both humanizations of a disease label — the one rendered on the
page (`.replace('___', ' - ').replace('_', ' ')`, line 246) and the one
put into the prompt (`.replace('___', ' ').replace('_', ' ')`, lines 119
and 240) — leave no underscore in the result, for every label. -/
theorem humanize_removes_underscores (label : String) :
    '_' ∉ (pyReplaceStr (pyReplaceStr label ("___") " - ") "_" " ").data ∧
    '_' ∉ (pyReplaceStr (pyReplaceStr label ("___") " ") "_" " ").data :=
  ⟨pyReplace_single_not_mem '_' [' '] (by decide) _,
   pyReplace_single_not_mem '_' [' '] (by decide) _⟩

/-- C5.  Label selection in `predict_disease` is a deterministic,
first-index arg-max over the probability row (being a pure function of
the row, repeated evaluation yields the same index): the selected index
attains the maximum, every earlier entry is strictly smaller (ties go to
the lowest index), and the returned confidence is the maximum of the row
itself, not re-normalized. -/
theorem predict_disease_argmax (e : AppEnv) (img_path : String) (m : PModel)
    (pimg : Img) (hm : e.model = some m)
    (hp : preprocess_image e img_path = some pimg)
    (hne : m.predict pimg ≠ []) :
    ∃ hlt : npArgmax (m.predict pimg) < (m.predict pimg).length,
      (m.predict pimg).get ⟨npArgmax (m.predict pimg), hlt⟩ = npMax (m.predict pimg) ∧
      (∀ j (hj : j < npArgmax (m.predict pimg)) (hjl : j < (m.predict pimg).length),
        (m.predict pimg).get ⟨j, hjl⟩ < npMax (m.predict pimg)) ∧
      ∀ name, e.class_names.get? (npArgmax (m.predict pimg)) = some name →
        predict_disease e img_path = .ok (name, npMax (m.predict pimg)) := by
  obtain ⟨hlt, hget, hlow⟩ := npArgmax_spec (m.predict pimg) hne
  refine ⟨hlt, hget, hlow, ?_⟩
  intro name hname
  obtain ⟨x, rest, hxr⟩ := List.exists_cons_of_ne_nil hne
  rw [hxr] at hname
  simp only [predict_disease, hm, hp, hxr, hname]

theorem predict_disease_argmax_witness :
    npArgmax [(1 : ℚ), 3, 3, 2] = 1 ∧
    predict_disease envTied ("leaf.jpg") = .ok ("B", 3) := by
  obtain ⟨hlt, hget, hlow, hpred⟩ :=
    predict_disease_argmax envTied ("leaf.jpg") ⟨fun _ => [1, 3, 3, 2]⟩ 0 rfl rfl (by decide)
  refine ⟨by decide, ?_⟩
  have hres := hpred ("B") (by decide)
  rw [hres]
  have hmax : npMax [(1 : ℚ), 3, 3, 2] = 3 := by decide
  rw [hmax]

/-- C6.  The end-to-end scenario: an authenticated POST of `leaf.jpg` with
city `"Mumbai"`, the classifier returning `("Tomato___Early_blight", 0.92)`
and the weather payload `{main: {temp: 30}, weather: [{description:
"clear sky"}]}` renders `analyze.html` with the confidence string
`"92.0%"` and the weather summary `"Clear sky, 30°C"`. -/
theorem analyze_scenario_render :
    analyze_route envScenario ⟨true⟩ ⟨"POST", some ("Mumbai"), some ("leaf.jpg")⟩ =
      ⟨.ok (.page ("analyze.html")
          [("filename", "leaf.jpg"),
           ("disease", "Tomato - Early blight"),
           ("confidence", "92.0%"),
           ("weather", "Clear sky, 30°C"),
           ("city", "Mumbai"),
           ("remedy", "advice")]),
       true, true⟩ := by
  have hstep :
      analyze_route envScenario ⟨true⟩ ⟨"POST", some ("Mumbai"), some ("leaf.jpg")⟩ =
        ⟨.ok (.page ("analyze.html")
            [("filename", "leaf.jpg"),
             ("disease", "Tomato - Early blight"),
             ("confidence", confidenceStr (23 / 25)),
             ("weather", "Clear sky, 30°C"),
             ("city", "Mumbai"),
             ("remedy", "advice")]),
         true, true⟩ := rfl
  rw [hstep, confidenceStr_092]

/-- C7.  `load_llm` distinguishes its three failure kinds: a provider
outside `{"groq", "openai"}` fails with the `Unsupported provider`
`ValueError`; a supported provider whose client library is not importable
fails with the dedicated `ImportError`; a supported provider with its
library importable but its API-key environment variable absent (or empty)
fails with the `missing` `ValueError` — and in each case no client is
constructed, so no network call can be attempted. -/
theorem load_llm_failure_kinds (env : LoaderEnv) :
    (∀ provider, provider ≠ "groq" → provider ≠ "openai" →
      load_llm env provider =
        .error (.valueError ("Unsupported provider: " ++ provider))) ∧
    (env.chatGroqInstalled = false →
      load_llm env ("groq") = .error (.importError
        ("langchain_groq is not installed. Install it using: pip install langchain-groq"))) ∧
    (env.chatOpenAIInstalled = false →
      load_llm env ("openai") = .error (.importError
        ("langchain_openai is not installed. Install it using: pip install langchain-openai"))) ∧
    (env.chatGroqInstalled = true → truthyOpt (env.getenv ("GROQ_API_KEY")) = false →
      load_llm env ("groq") =
        .error (.valueError ("GROQ_API_KEY missing! Check your .env file."))) ∧
    (env.chatOpenAIInstalled = true → truthyOpt (env.getenv ("OPENAI_API_KEY")) = false →
      load_llm env ("openai") =
        .error (.valueError ("OPENAI_API_KEY missing! Check your .env file."))) := by
  refine ⟨?_, ?_, ?_, ?_, ?_⟩
  · intro provider h1 h2
    unfold load_llm
    rw [if_neg h1, if_neg h2]
  · intro h
    unfold load_llm
    rw [if_pos rfl, if_pos h]
  · intro h
    unfold load_llm
    rw [if_neg (by decide : ¬("openai" : String) = "groq"), if_pos rfl, if_pos h]
  · intro h1 h2
    unfold load_llm
    rw [if_pos rfl, if_neg (by simp [h1]), if_pos h2]
  · intro h1 h2
    unfold load_llm
    rw [if_neg (by decide : ¬("openai" : String) = "groq"), if_pos rfl,
      if_neg (by simp [h1]), if_pos h2]

theorem load_llm_failure_kinds_witness :
    load_llm lenvMissingLib ("cohere") =
      .error (.valueError ("Unsupported provider: cohere")) ∧
    load_llm lenvMissingLib ("groq") = .error (.importError
      ("langchain_groq is not installed. Install it using: pip install langchain-groq")) ∧
    load_llm lenvNoKey ("groq") =
      .error (.valueError ("GROQ_API_KEY missing! Check your .env file.")) :=
  ⟨(load_llm_failure_kinds lenvMissingLib).1 ("cohere") (by decide) (by decide),
   (load_llm_failure_kinds lenvMissingLib).2.1 rfl,
   (load_llm_failure_kinds lenvNoKey).2.2.2.1 rfl rfl⟩

/-- C8.  Every request to `/analyze` without `'logged_in'` in the session
is answered by a redirect to `signin`, and neither the classifier nor the
preprocessor runs. -/
theorem analyze_unauthenticated_redirects (e : AppEnv) (sess : Session)
    (req : Request) (h : sess.logged_in = false) :
    analyze_route e sess req = ⟨.ok (.redirect ("signin")), false, false⟩ := by
  unfold analyze_route
  rw [h]
  rfl

theorem analyze_unauthenticated_redirects_witness :
    analyze_route envScenario ⟨false⟩ ⟨"GET", none, none⟩ =
      ⟨.ok (.redirect ("signin")), false, false⟩ :=
  analyze_unauthenticated_redirects envScenario ⟨false⟩ ⟨"GET", none, none⟩ rfl

/-- C9.  An authenticated POST whose uploaded filename fails the
extension allow-list, or whose city field is empty (or absent), falls
through to the blank form: the classifier and preprocessor never run and
the file is not saved. -/
theorem analyze_invalid_upload_is_noop (e : AppEnv) (sess : Session)
    (req : Request) (fn : String) (hlog : sess.logged_in = true)
    (hpost : req.method = "POST") (hfile : req.file = some fn)
    (hbad : allowed_file fn.data = false ∨ truthyOpt req.city = false) :
    analyze_route e sess req = ⟨.ok (.page ("analyze.html") []), false, false⟩ := by
  unfold analyze_route
  rw [hlog, hpost, hfile]
  simp only [Bool.true_eq_false, if_false, if_pos rfl]
  cases hcity : req.city with
  | none => rfl
  | some city =>
    have hcond : (fn != "" && allowed_file fn.data && city != "") = false := by
      rcases hbad with hext | hc
      · simp [hext]
      · rw [hcity] at hc
        simp only [truthyOpt] at hc
        simp [hc]
    simp [hcond]

theorem analyze_invalid_upload_is_noop_witness :
    analyze_route envScenario ⟨true⟩ ⟨"POST", some ("Mumbai"), some ("photo.gif")⟩ =
      ⟨.ok (.page ("analyze.html") []), false, false⟩ :=
  analyze_invalid_upload_is_noop envScenario ⟨true⟩
    ⟨"POST", some ("Mumbai"), some ("photo.gif")⟩ "photo.gif" rfl rfl rfl
    (Or.inl (by decide))

/-- Applying `takeWhile` with the not-a-dot predicate recovers exactly the part
before a dot, when that part is dot-free. -/
theorem takeWhile_no_dot_append (xs : List Char) (ys : List Char)
    (hxs : ∀ x ∈ xs, x ≠ '.') :
    ((xs ++ '.' :: ys).takeWhile (fun c => c ≠ '.')) = xs := by
  induction xs with
  | nil => simp
  | cons x xs ih =>
    have hx : x ≠ '.' := hxs x (List.mem_cons_self x xs)
    rw [List.cons_append, List.takeWhile_cons_of_pos (by simpa using hx)]
    rw [ih (fun y hy => hxs y (List.mem_cons_of_mem x hy))]

/-- The `afterLastDot` of a string ending in a dot-free suffix `b` after a dot
is exactly `b`. -/
theorem afterLastDot_append (a b : List Char) (hb : '.' ∉ b) :
    afterLastDot (a ++ '.' :: b) = b := by
  unfold afterLastDot
  rw [List.reverse_append, List.reverse_cons, List.append_assoc, List.singleton_append]
  rw [takeWhile_no_dot_append b.reverse a.reverse
    (fun x hx => by
      intro hxeq
      exact hb (by simpa [hxeq] using List.mem_reverse.mp hx))]
  exact List.reverse_reverse b

/-- Every character list containing a dot splits as `a ++ '.' :: b` with
`b` dot-free, and `b` is exactly `afterLastDot`. -/
theorem exists_decomp_of_contains_dot (fn : List Char) (h : '.' ∈ fn) :
    ∃ a, fn = a ++ '.' :: afterLastDot fn ∧ '.' ∉ afterLastDot fn := by
  have hr : '.' ∈ fn.reverse := List.mem_reverse.mpr h
  have hdr : fn.reverse.dropWhile (fun c => c ≠ '.') ≠ [] := by
    intro hnil
    have hall := List.dropWhile_eq_nil_iff.mp hnil '.' hr
    simp at hall
  obtain ⟨d, t, hdt⟩ := List.exists_cons_of_ne_nil hdr
  have hd : d = '.' := by
    have h1 := List.head_dropWhile_not (fun c => (c ≠ '.' : Bool)) fn.reverse hdr
    have h2 : (fn.reverse.dropWhile (fun c => (c ≠ '.' : Bool))).head hdr = d := by
      have h3 := congrArg List.head? hdt
      rw [List.head?_cons, List.head?_eq_head hdr] at h3
      exact Option.some.inj h3
    rw [h2] at h1
    simpa using h1
  have hsplit : fn.reverse =
      fn.reverse.takeWhile (fun c => (c ≠ '.' : Bool)) ++ '.' :: t := by
    conv_lhs => rw [← List.takeWhile_append_dropWhile (fun c => (c ≠ '.' : Bool)) fn.reverse]
    rw [hdt, hd]
  have hfn : fn = t.reverse ++ '.' ::
      (fn.reverse.takeWhile (fun c => (c ≠ '.' : Bool))).reverse := by
    conv_lhs => rw [← List.reverse_reverse fn, hsplit]
    rw [List.reverse_append, List.reverse_cons, List.append_assoc, List.singleton_append]
  refine ⟨t.reverse, hfn, ?_⟩
  intro hmem
  have hmem2 := List.mem_reverse.mp hmem
  have := List.mem_takeWhile_imp hmem2
  simp at this

/-- C10.  `allowed_file` accepts exactly the filenames that contain a dot
whose substring after the last dot is, case-insensitively, `png`, `jpg`
or `jpeg`; in particular the dot-less name `"png"` is rejected and the
upper-case `"LEAF.JPG"` is accepted. -/
theorem allowed_file_charact :
    (∀ fn : List Char,
      allowed_file fn = true ↔
        ∃ a b, fn = a ++ '.' :: b ∧ '.' ∉ b ∧ pyLower b ∈ ALLOWED_EXTENSIONS) ∧
    allowed_file ("png").data = false ∧
    allowed_file ("LEAF.JPG").data = true := by
  refine ⟨?_, by decide, by decide⟩
  intro fn
  constructor
  · intro h
    unfold allowed_file at h
    rw [Bool.and_eq_true] at h
    obtain ⟨hcont, hmem⟩ := h
    have hdot : '.' ∈ fn := List.elem_iff.mp hcont
    obtain ⟨a, hfa, hnb⟩ := exists_decomp_of_contains_dot fn hdot
    exact ⟨a, afterLastDot fn, hfa, hnb, List.elem_iff.mp hmem⟩
  · rintro ⟨a, b, rfl, hnb, hmem⟩
    unfold allowed_file
    rw [Bool.and_eq_true]
    refine ⟨List.elem_iff.mpr (by simp), ?_⟩
    rw [afterLastDot_append a b hnb]
    exact List.elem_iff.mpr hmem

end PlantCare
